import Mathlib

/-!
Shallow embedding of the sendIT backend (`src/app.py`): data model,
authentication handlers (`Signup`, `Login`) and the generic CRUD resource
handlers (`Users`, `UserByID`, `Orders`, `OrderByID`, `FeedbackResource`,
`Parcels`, `Profiles`), together with the route table built by the
`api.add_resource` calls.

External collaborators (the SQLAlchemy session, flask_bcrypt, PyJWT) are
modelled explicitly: the database is a record of per-table row lists, the
bcrypt hasher is a parameter (a pair of functions: generate and check), a
JWT is its payload record together with the signing key and algorithm, and
a failing `db.session.commit()` is a parameter carrying the error message.
-/

namespace SendIT

/-- A row of the `users` table.  Columns other than the primary key are
nullable: `Users.post` builds a row from `request.json.get(...)`, which
yields `None` for an absent key. -/
structure User where
  id : Nat
  email : Option String
  username : Option String
  role : Option String
  password : Option String
deriving DecidableEq

/-- A row of the `orders` table. -/
structure Order where
  id : Nat
  pickup_address : Option String
  delivery_address : Option String
  status : Option String
  user_id : Option Nat
deriving DecidableEq

/-- A row of the `feedbacks` table. -/
structure Feedback where
  id : Nat
  rating : Option Int
  comments : Option String
  user_id : Option Nat
deriving DecidableEq

/-- A row of the `parcels` table. -/
structure Parcel where
  id : Nat
  description : Option String
  weight : Option Int
  dimensions : Option String
  order_id : Option Nat
deriving DecidableEq

/-- A row of the `profiles` table. -/
structure Profile where
  id : Nat
  user_id : Option Nat
  bio : Option String
  profile_picture : Option String
deriving DecidableEq

/-- The relational store: one list of rows per table. -/
structure DB where
  users : List User
  orders : List Order
  feedbacks : List Feedback
  parcels : List Parcel
  profiles : List Profile
deriving DecidableEq

/-- The empty database. -/
def emptyDB : DB := ⟨[], [], [], [], []⟩

/-- `app.config['SECRET_KEY']` (line 16 of `src/app.py`). -/
def SECRET_KEY : String := "9d970c5fb1d04ea380828d9c491448ce"

/-- The bcrypt facade (flask_bcrypt, an external library): a salted one-way
hash generator `generate_password_hash salt plaintext` and the matching
verifier `check_password_hash storedHash plaintext`.  Handlers are
parameterised over it, exactly as the code is parameterised over the
library. -/
structure Hasher where
  generate_password_hash : String → String → String
  check_password_hash : String → String → Bool

/-- A JWT as issued by `jwt.encode({'identity': ..., 'exp': ...}, key,
algorithm=alg)`: the payload claims plus the signing key and algorithm. -/
structure JwtToken where
  identity : Nat
  exp : Nat
  key : String
  alg : String
deriving DecidableEq

/-- Modelled from the library call `jwt.encode`: packages the claims with
the signing key and algorithm. -/
def jwtEncode (identity : Nat) (exp : Nat) (key : String) (alg : String) : JwtToken :=
  ⟨identity, exp, key, alg⟩

/-- `timedelta(hours=1)` in seconds. -/
def oneHour : Nat := 3600

/-- `timedelta(days=30)` in seconds. -/
def thirtyDays : Nat := 30 * 86400

/-- The body of `POST /signup` after `register_args.parse_args()`:
`email`, `password`, `username` are `required=True` (a missing one is a
400 before the handler runs), `role` is optional. -/
structure SignupRequest where
  email : String
  password : String
  username : String
  role : Option String
deriving DecidableEq

/-- Outcome of the `Signup.post` handler. -/
inductive SignupResult where
  | created (msg : String)
  | serverError (msg : String)
deriving DecidableEq

/-- HTTP status of a `Signup.post` outcome. -/
def SignupResult.status : SignupResult → Nat
  | .created _ => 201
  | .serverError _ => 500

/-- The `new_user = User(...)` record built by `Signup.post` (lines 61-68):
the role defaults to `'customer'` and the password column receives
`bcrypt.generate_password_hash(data['password'])`.  `newId` is the primary
key the persistence layer assigns. -/
def Signup.newUser (H : Hasher) (salt : String) (newId : Nat) (req : SignupRequest) : User :=
  { id := newId
    email := some req.email
    username := some req.username
    role := some (req.role.getD "customer")
    password := some (H.generate_password_hash salt req.password) }

/-- `Signup.post` (lines 58-77).  `persistError` is the outcome of
`db.session.commit()`: `none` means the commit succeeded, `some e` means
it raised with message `e`, in which case the session is rolled back (the
store is returned unchanged) and a generic 500 is reported. -/
def Signup.post (H : Hasher) (salt : String) (db : DB) (newId : Nat)
    (persistError : Option String) (req : SignupRequest) : SignupResult × DB :=
  match persistError with
  | none =>
      (.created "User created successfully",
        { db with users := db.users ++ [Signup.newUser H salt newId req] })
  | some _ =>
      (.serverError "An error occurred while creating the user", db)

/-- The body of `POST /login` after `login_args.parse_args()`. -/
structure LoginRequest where
  email : String
  password : String
deriving DecidableEq

/-- Outcome of the `Login.post` handler.  `serverError` covers the path
where `check_password_hash` is applied to a `NULL` password column (the
library raises and Flask's 500 handler answers). -/
inductive LoginResult where
  | notFound (msg : String)
  | unauthorized (msg : String)
  | serverError (msg : String)
  | ok (token : JwtToken) (refresh_token : JwtToken)
deriving DecidableEq

/-- HTTP status of a `Login.post` outcome. -/
def LoginResult.status : LoginResult → Nat
  | .notFound _ => 404
  | .unauthorized _ => 401
  | .serverError _ => 500
  | .ok _ _ => 200

/-- Whether a `Login.post` outcome carries tokens. -/
def LoginResult.hasTokens : LoginResult → Bool
  | .ok _ _ => true
  | _ => false

/-- `Login.post` (lines 79-114).  `User.query.filter_by(email=email).first()`
is the first row whose email column equals the supplied string; `now1` and
`now2` are the two `datetime.datetime.utcnow()` readings (seconds), taken
in that order. -/
def Login.post (H : Hasher) (db : DB) (now1 now2 : Nat) (req : LoginRequest) : LoginResult :=
  match db.users.find? (fun u => u.email == some req.email) with
  | none => .notFound "User does not exist in our database"
  | some user =>
      match user.password with
      | none => .serverError "Internal Server Error"
      | some stored =>
          if H.check_password_hash stored req.password then
            .ok (jwtEncode user.id (now1 + oneHour) SECRET_KEY "HS256")
              (jwtEncode user.id (now2 + thirtyDays) SECRET_KEY "HS256")
          else
            .unauthorized "Password is incorrect!"

/-- A list endpoint's response body: `{"count": ..., "<table>": [...]}`. -/
structure ListResponse (α : Type) where
  count : Nat
  items : List α
deriving DecidableEq

/-- A create endpoint's response: status 201 with the new row, and the
store after the commit. -/
structure CreateResult (α : Type) where
  status : Nat
  record : α
  db : DB

/-- A by-id endpoint's response: the status, the (serialized) row when one
was found, and the store afterwards. -/
structure ByIdResult (α : Type) where
  status : Nat
  record : Option α
  db : DB

/-- `Users.get` (lines 117-120): all rows plus `len` of the list returned. -/
def Users.get (db : DB) : ListResponse User :=
  ⟨db.users.length, db.users⟩

/-- The body of `POST /users`: raw `request.json.get(...)` lookups, `none`
for an absent key. -/
structure UsersPostBody where
  username : Option String
  email : Option String
  password : Option String
  role : Option String
deriving DecidableEq

/-- `Users.post` (lines 122-132): the row is built directly from the body;
in particular the password column receives the client value verbatim and
an absent role stays `NULL`. -/
def Users.post (db : DB) (newId : Nat) (body : UsersPostBody) : CreateResult User :=
  let new_user : User :=
    { id := newId
      email := body.email
      username := body.username
      role := body.role
      password := body.password }
  ⟨201, new_user, { db with users := db.users ++ [new_user] }⟩

/-- Replace the first element satisfying `p` by its image under `f`
(mutating the row object `Query.get` returned, then committing). -/
def updateFirst {α : Type} (p : α → Bool) (f : α → α) : List α → List α
  | [] => []
  | x :: xs => if p x then f x :: xs else x :: updateFirst p f xs

/-- Drop the first element satisfying `p` (`db.session.delete` on the row
`Query.get` returned, then commit). -/
def removeFirst {α : Type} (p : α → Bool) : List α → List α
  | [] => []
  | x :: xs => if p x then xs else x :: removeFirst p xs

/-- One `setattr(user, attr, request.json.get(attr))` step of the generic
patch loop, for a string-valued JSON entry: a recognised column name
overwrites that column; a key that is no column only sets a transient
Python attribute, which the commit does not persist. -/
def User.setAttr (u : User) (kv : String × String) : User :=
  match kv.1 with
  | "email" => { u with email := some kv.2 }
  | "username" => { u with username := some kv.2 }
  | "role" => { u with role := some kv.2 }
  | "password" => { u with password := some kv.2 }
  | _ => u

/-- `UserByID.get` (lines 135-140): `User.query.get(id)`, 404 when absent. -/
def UserByID.get (db : DB) (id : Nat) : ByIdResult User :=
  match db.users.find? (fun u => u.id == id) with
  | none => ⟨404, none, db⟩
  | some u => ⟨200, some u, db⟩

/-- `UserByID.patch` (lines 142-151): fetch by id (404 when absent), apply
every body entry with `setattr` in order, commit, return the row. -/
def UserByID.patch (db : DB) (id : Nat) (body : List (String × String)) : ByIdResult User :=
  match db.users.find? (fun u => u.id == id) with
  | none => ⟨404, none, db⟩
  | some u =>
      ⟨200, some (body.foldl User.setAttr u),
        { db with users := updateFirst (fun v => v.id == id) (fun v => body.foldl User.setAttr v) db.users }⟩

/-- `UserByID.delete` (lines 153-161): fetch by id (404 when absent),
delete the row, commit. -/
def UserByID.delete (db : DB) (id : Nat) : ByIdResult User :=
  match db.users.find? (fun u => u.id == id) with
  | none => ⟨404, none, db⟩
  | some u => ⟨200, some u, { db with users := removeFirst (fun v => v.id == id) db.users }⟩

/-- `Orders.get` (lines 164-167). -/
def Orders.get (db : DB) : ListResponse Order :=
  ⟨db.orders.length, db.orders⟩

/-- One `setattr` step of `OrderByID.patch`, for a string-valued entry. -/
def Order.setAttr (o : Order) (kv : String × String) : Order :=
  match kv.1 with
  | "pickup_address" => { o with pickup_address := some kv.2 }
  | "delivery_address" => { o with delivery_address := some kv.2 }
  | "status" => { o with status := some kv.2 }
  | _ => o

/-- `OrderByID.get` (lines 182-187). -/
def OrderByID.get (db : DB) (id : Nat) : ByIdResult Order :=
  match db.orders.find? (fun o => o.id == id) with
  | none => ⟨404, none, db⟩
  | some o => ⟨200, some o, db⟩

/-- `OrderByID.patch` (lines 189-198). -/
def OrderByID.patch (db : DB) (id : Nat) (body : List (String × String)) : ByIdResult Order :=
  match db.orders.find? (fun o => o.id == id) with
  | none => ⟨404, none, db⟩
  | some o =>
      ⟨200, some (body.foldl Order.setAttr o),
        { db with orders := updateFirst (fun v => v.id == id) (fun v => body.foldl Order.setAttr v) db.orders }⟩

/-- `OrderByID.delete` (lines 200-208). -/
def OrderByID.delete (db : DB) (id : Nat) : ByIdResult Order :=
  match db.orders.find? (fun o => o.id == id) with
  | none => ⟨404, none, db⟩
  | some o => ⟨200, some o, { db with orders := removeFirst (fun v => v.id == id) db.orders }⟩

/-- `FeedbackResource.get` (lines 211-214). -/
def FeedbackResource.get (db : DB) : ListResponse Feedback :=
  ⟨db.feedbacks.length, db.feedbacks⟩

/-- `Parcels.get` (lines 228-231). -/
def Parcels.get (db : DB) : ListResponse Parcel :=
  ⟨db.parcels.length, db.parcels⟩

/-- `Profiles.get` (lines 246-249). -/
def Profiles.get (db : DB) : ListResponse Profile :=
  ⟨db.profiles.length, db.profiles⟩

/-- The route table built by the `api.add_resource` calls
(lines 262-271): resource class name and URL rule. -/
def routes : List (String × String) :=
  [ ("Signup", "/signup")
  , ("Login", "/login")
  , ("Users", "/users")
  , ("UserByID", "/users/<int:id>")
  , ("Orders", "/orders")
  , ("OrderByID", "/orders/<int:id>")
  , ("FeedbackResource", "/feedback")
  , ("Parcels", "/parcels")
  , ("Profiles", "/profiles") ]

/-- A concrete hasher used to instantiate witnesses: prepends a bcrypt-style
header and the salt.  Its output is always longer than the plaintext, so it
has no fixed point. -/
def exampleHasher : Hasher where
  generate_password_hash := fun salt pw => "$2b$12$" ++ salt ++ "." ++ pw
  check_password_hash := fun stored pw => stored == "$2b$12$ab." ++ pw

/-- The example hasher never returns its plaintext argument. -/
theorem exampleHasher_ne_plaintext (salt pw : String) :
    exampleHasher.generate_password_hash salt pw ≠ pw := by
  intro h
  have hlen := congrArg String.length h
  simp [exampleHasher, String.length_append] at hlen
  exact absurd hlen.2 (by decide)

/-- A concrete user row used to instantiate witnesses: signed up with the
example hasher under salt `"ab"` and plaintext `"pw1"`. -/
def user1 : User :=
  ⟨1, some "a@x.com", some "alice", some "customer",
    some (exampleHasher.generate_password_hash "ab" "pw1")⟩

/-- A concrete order row used to instantiate witnesses. -/
def order1 : Order := ⟨5, some "p", some "d", some "pending", some 1⟩

/-- A small database used to instantiate witnesses. -/
def db1 : DB :=
  { users := [user1]
    orders := [order1]
    feedbacks := []
    parcels := []
    profiles := [] }

/-- Decomposition of a successful `find?`: the list splits as a prefix of
non-matching elements, the found element, and a suffix; `updateFirst` and
`removeFirst` act exactly at the found position. -/
theorem find?_decomp {α : Type} (p : α → Bool) (l : List α) (u : α) (h : l.find? p = some u) :
    ∃ pre post, l = pre ++ u :: post ∧ (∀ v ∈ pre, p v = false) ∧ p u = true ∧
      (∀ f, updateFirst p f l = pre ++ f u :: post) ∧ removeFirst p l = pre ++ post := by
  induction l with
  | nil => simp [List.find?] at h
  | cons a t ih =>
      cases hp : p a with
      | true =>
          rw [List.find?_cons_of_pos _ hp] at h
          have ha := Option.some.inj h
          subst ha
          exact ⟨[], t, by simp, by simp, hp,
            fun f => by simp [updateFirst, hp], by simp [removeFirst, hp]⟩
      | false =>
          rw [List.find?_cons_of_neg _ (by simp [hp])] at h
          obtain ⟨pre, post, hl, hpre, hu, hupd, hrem⟩ := ih h
          refine ⟨a :: pre, post, by simp [hl], ?_, hu, ?_, ?_⟩
          · intro v hv
            rcases List.mem_cons.mp hv with rfl | hv
            · exact hp
            · exact hpre v hv
          · intro f
            simp [updateFirst, hp, hupd f]
          · simp [removeFirst, hp, hrem]

/-- After removing the row `find?` located, a key-based lookup finds
nothing, provided the keys of the list were distinct (primary keys are). -/
theorem find?_after_removeFirst {α : Type} (key : α → Nat) (k : Nat) (l : List α) (u : α)
    (hnd : (l.map key).Nodup) (h : l.find? (fun a => key a == k) = some u) :
    (removeFirst (fun a => key a == k) l).find? (fun a => key a == k) = none := by
  obtain ⟨pre, post, hl, hpre, hu, hupd, hrem⟩ := find?_decomp (fun a => key a == k) l u h
  rw [hrem]
  apply List.find?_eq_none.mpr
  intro x hx
  rcases List.mem_append.mp hx with hx | hx
  · simp [hpre x hx]
  · subst hl
    rw [List.map_append] at hnd
    have hnd2 : ((u :: post).map key).Nodup := hnd.of_append_right
    rw [List.map_cons, List.nodup_cons] at hnd2
    have hkey : key u = k := by simpa using hu
    intro hpx
    have hx2 : key x = k := by simpa using hpx
    have hmem : key u ∈ post.map key := by
      rw [hkey, ← hx2]
      exact List.mem_map_of_mem key hx
    exact hnd2.1 hmem

/-- Applying the patch body with only a username entry rewrites only the
username column. -/
theorem foldl_setAttr_username (u : User) (x : String) :
    [("username", x)].foldl User.setAttr u = { u with username := some x } := rfl

/-- One `setattr` step with a username entry rewrites only that column. -/
theorem setAttr_username (u : User) (x : String) :
    u.setAttr ("username", x) = { u with username := some x } := rfl

/-- Claim C1: a login request whose email matches no user row yields 404,
and one whose email matches a row but whose password fails
`check_password_hash` against the stored hash yields 401; in both cases
the result carries no tokens. -/
theorem login_failure_no_tokens (H : Hasher) (db : DB) (now1 now2 : Nat) (req : LoginRequest) :
    (db.users.find? (fun u => u.email == some req.email) = none →
      Login.post H db now1 now2 req = .notFound "User does not exist in our database" ∧
      (Login.post H db now1 now2 req).status = 404 ∧
      (Login.post H db now1 now2 req).hasTokens = false) ∧
    (∀ u stored, db.users.find? (fun u => u.email == some req.email) = some u →
      u.password = some stored →
      H.check_password_hash stored req.password = false →
      Login.post H db now1 now2 req = .unauthorized "Password is incorrect!" ∧
      (Login.post H db now1 now2 req).status = 401 ∧
      (Login.post H db now1 now2 req).hasTokens = false) := by
  constructor
  · intro h
    simp [Login.post, h, LoginResult.status, LoginResult.hasTokens]
  · intro u stored hf hpw hchk
    simp [Login.post, hf, hpw, hchk, LoginResult.status, LoginResult.hasTokens]

/-- Witness for C1 at concrete inputs: an unknown email gives 404, a wrong
password for a registered email gives 401. -/
theorem login_failure_no_tokens_checked :
    (Login.post exampleHasher db1 0 0 ⟨"nobody@x.com", "zz"⟩).status = 404 ∧
    (Login.post exampleHasher db1 0 0 ⟨"a@x.com", "wrong"⟩).status = 401 :=
  ⟨((login_failure_no_tokens exampleHasher db1 0 0 ⟨"nobody@x.com", "zz"⟩).1 (by decide)).2.1,
   ((login_failure_no_tokens exampleHasher db1 0 0 ⟨"a@x.com", "wrong"⟩).2 user1
      (exampleHasher.generate_password_hash "ab" "pw1") (by decide) rfl (by decide)).2.1⟩

/-- Claim C2: a login whose email matches a row and whose password verifies
returns 200 with two tokens signed with the static secret under HS256, each
carrying the matched user's id as `identity` and an `exp` of issue time plus
1 hour (access) respectively issue time plus 30 days (refresh); with a
non-decreasing clock the access expiry is strictly earlier. -/
theorem login_success_token_claims (H : Hasher) (db : DB) (now1 now2 : Nat) (req : LoginRequest)
    (u : User) (stored : String)
    (hfind : db.users.find? (fun v => v.email == some req.email) = some u)
    (hpw : u.password = some stored)
    (hchk : H.check_password_hash stored req.password = true)
    (hclock : now1 ≤ now2) :
    Login.post H db now1 now2 req =
      .ok (jwtEncode u.id (now1 + oneHour) SECRET_KEY "HS256")
        (jwtEncode u.id (now2 + thirtyDays) SECRET_KEY "HS256") ∧
    (Login.post H db now1 now2 req).status = 200 ∧
    now1 + oneHour < now2 + thirtyDays := by
  refine ⟨?_, ?_, ?_⟩
  · simp [Login.post, hfind, hpw, hchk]
  · simp [Login.post, hfind, hpw, hchk, LoginResult.status]
  · simp only [oneHour, thirtyDays]
    omega

/-- Witness for C2: the concrete registered user with the correct password
gets a 200 and ordered expiries. -/
theorem login_success_token_claims_checked :
    (Login.post exampleHasher db1 10 20 ⟨"a@x.com", "pw1"⟩).status = 200 ∧
    10 + oneHour < 20 + thirtyDays :=
  ⟨(login_success_token_claims exampleHasher db1 10 20 ⟨"a@x.com", "pw1"⟩ user1
      (exampleHasher.generate_password_hash "ab" "pw1") (by decide) rfl (by decide)
      (by decide)).2.1,
   (login_success_token_claims exampleHasher db1 10 20 ⟨"a@x.com", "pw1"⟩ user1
      (exampleHasher.generate_password_hash "ab" "pw1") (by decide) rfl (by decide)
      (by decide)).2.2⟩

/-- Claim C3: a signup whose commit succeeds appends exactly one user row,
whose password column is the salted hash of the supplied plaintext — hence
(the hasher having no fixed point there) not the plaintext — and reports
201. -/
theorem signup_success_hashes (H : Hasher) (salt : String) (db : DB) (newId : Nat)
    (req : SignupRequest)
    (hone : H.generate_password_hash salt req.password ≠ req.password) :
    (Signup.post H salt db newId none req).1.status = 201 ∧
    (Signup.post H salt db newId none req).2.users = db.users ++ [Signup.newUser H salt newId req] ∧
    (Signup.newUser H salt newId req).password = some (H.generate_password_hash salt req.password) ∧
    (Signup.newUser H salt newId req).password ≠ some req.password ∧
    (Signup.post H salt db newId none req).2.orders = db.orders ∧
    (Signup.post H salt db newId none req).2.feedbacks = db.feedbacks ∧
    (Signup.post H salt db newId none req).2.parcels = db.parcels ∧
    (Signup.post H salt db newId none req).2.profiles = db.profiles := by
  refine ⟨rfl, rfl, rfl, ?_, rfl, rfl, rfl, rfl⟩
  intro h
  exact hone (Option.some.inj h)

/-- Witness for C3 at a concrete signup. -/
theorem signup_success_hashes_checked :
    (Signup.post exampleHasher "ab" emptyDB 1 none ⟨"b@x.com", "secret", "bob", none⟩).1.status = 201 ∧
    (Signup.newUser exampleHasher "ab" 1 ⟨"b@x.com", "secret", "bob", none⟩).password ≠ some "secret" :=
  ⟨(signup_success_hashes exampleHasher "ab" emptyDB 1 ⟨"b@x.com", "secret", "bob", none⟩
      (exampleHasher_ne_plaintext "ab" "secret")).1,
   (signup_success_hashes exampleHasher "ab" emptyDB 1 ⟨"b@x.com", "secret", "bob", none⟩
      (exampleHasher_ne_plaintext "ab" "secret")).2.2.2.1⟩

/-- Claim C4: a signup whose commit fails leaves the store exactly as it
was and answers a generic 500 whose body does not depend on the particular
failure. -/
theorem signup_failure_rollback (H : Hasher) (salt : String) (db : DB) (newId : Nat)
    (e : String) (req : SignupRequest) :
    Signup.post H salt db newId (some e) req =
      (.serverError "An error occurred while creating the user", db) ∧
    (Signup.post H salt db newId (some e) req).1.status = 500 ∧
    (∀ e2, Signup.post H salt db newId (some e) req = Signup.post H salt db newId (some e2) req) := by
  exact ⟨rfl, rfl, fun e2 => rfl⟩

/-- Counterexample to claim C5: `POST /users` stores the client-supplied
password verbatim — the stored password field equals the plaintext, so it
is neither a salted hash of it nor different from it. -/
theorem users_post_stores_plaintext :
    (Users.post emptyDB 1 ⟨some "alice", some "a@x.com", some "hunter2", none⟩).record.password
      = some "hunter2" ∧
    (Users.post emptyDB 1 ⟨some "alice", some "a@x.com", some "hunter2", none⟩).db.users
      = [⟨1, some "a@x.com", some "alice", none, some "hunter2"⟩] := by
  exact ⟨rfl, rfl⟩

/-- Claim C5 as amended: only Signup hashes; its stored password is the
salted hash of the plaintext (and differs from the plaintext when the
hasher has no fixed point there), while `POST /users` stores the body's
password field verbatim and `PATCH /users/{id}` with a password entry
stores that plaintext verbatim. -/
theorem password_storage_per_endpoint (H : Hasher) (salt : String) (newId : Nat)
    (req : SignupRequest) (db2 : DB) (body : UsersPostBody) (db3 : DB) (id : Nat)
    (pw : String) (u : User)
    (hone : H.generate_password_hash salt req.password ≠ req.password)
    (hfind : db3.users.find? (fun v => v.id == id) = some u) :
    ((Signup.newUser H salt newId req).password = some (H.generate_password_hash salt req.password) ∧
      (Signup.newUser H salt newId req).password ≠ some req.password) ∧
    (Users.post db2 newId body).record.password = body.password ∧
    ((UserByID.patch db3 id [("password", pw)]).record.map User.password) = some (some pw) := by
  refine ⟨⟨rfl, ?_⟩, rfl, ?_⟩
  · intro h
    exact hone (Option.some.inj h)
  · simp [UserByID.patch, hfind, User.setAttr]

/-- Witness for the amended C5 at concrete inputs. -/
theorem password_storage_per_endpoint_checked :
    (Signup.newUser exampleHasher "ab" 2 ⟨"c@x.com", "pp", "carl", none⟩).password ≠ some "pp" ∧
    ((UserByID.patch db1 1 [("password", "npw")]).record.map User.password) = some (some "npw") :=
  ⟨(password_storage_per_endpoint exampleHasher "ab" 2 ⟨"c@x.com", "pp", "carl", none⟩
      emptyDB ⟨none, none, none, none⟩ db1 1 "npw" user1
      (exampleHasher_ne_plaintext "ab" "pp") (by decide)).1.2,
   (password_storage_per_endpoint exampleHasher "ab" 2 ⟨"c@x.com", "pp", "carl", none⟩
      emptyDB ⟨none, none, none, none⟩ db1 1 "npw" user1
      (exampleHasher_ne_plaintext "ab" "pp") (by decide)).2.2⟩

/-- Counterexample to claim C6: the route table registers no by-id URL rule
for Feedback, Parcels or Profiles — the only routes are the nine listed, so
those three resources have list/create endpoints only. -/
theorem no_byid_routes_for_feedback_parcels_profiles :
    "/feedback/<int:id>" ∉ routes.map Prod.snd ∧
    "/parcels/<int:id>" ∉ routes.map Prod.snd ∧
    "/profiles/<int:id>" ∉ routes.map Prod.snd ∧
    routes.map Prod.snd =
      ["/signup", "/login", "/users", "/users/<int:id>", "/orders", "/orders/<int:id>",
        "/feedback", "/parcels", "/profiles"] := by
  refine ⟨?_, ?_, ?_, rfl⟩ <;> decide

/-- Claim C6 as amended: exactly Users and Orders carry by-id routes, and
each of their get/patch/delete by-id handlers answers 404 when no row has
the given id. -/
theorem byid_endpoints_users_orders_only (db : DB) (id : Nat) (body : List (String × String))
    (hu : db.users.find? (fun u => u.id == id) = none)
    (ho : db.orders.find? (fun o => o.id == id) = none) :
    ("/users/<int:id>" ∈ routes.map Prod.snd ∧ "/orders/<int:id>" ∈ routes.map Prod.snd ∧
      "/feedback/<int:id>" ∉ routes.map Prod.snd ∧ "/parcels/<int:id>" ∉ routes.map Prod.snd ∧
      "/profiles/<int:id>" ∉ routes.map Prod.snd) ∧
    (UserByID.get db id).status = 404 ∧
    (UserByID.patch db id body).status = 404 ∧
    (UserByID.delete db id).status = 404 ∧
    (OrderByID.get db id).status = 404 ∧
    (OrderByID.patch db id body).status = 404 ∧
    (OrderByID.delete db id).status = 404 := by
  refine ⟨by decide, ?_, ?_, ?_, ?_, ?_, ?_⟩ <;>
    simp [UserByID.get, UserByID.patch, UserByID.delete,
      OrderByID.get, OrderByID.patch, OrderByID.delete, hu, ho]

/-- Witness for the amended C6 on the empty database. -/
theorem byid_endpoints_users_orders_only_checked :
    (UserByID.get emptyDB 1).status = 404 ∧ (OrderByID.delete emptyDB 1).status = 404 :=
  ⟨(byid_endpoints_users_orders_only emptyDB 1 [] (by decide) (by decide)).2.1,
   (byid_endpoints_users_orders_only emptyDB 1 [] (by decide) (by decide)).2.2.2.2.2.2⟩

/-- Claim C7: every list endpoint returns all rows of its table and a count
equal to the number of rows returned. -/
theorem list_returns_all_rows_with_count (db : DB) :
    ((Users.get db).items = db.users ∧ (Users.get db).count = (Users.get db).items.length) ∧
    ((Orders.get db).items = db.orders ∧ (Orders.get db).count = (Orders.get db).items.length) ∧
    ((FeedbackResource.get db).items = db.feedbacks ∧
      (FeedbackResource.get db).count = (FeedbackResource.get db).items.length) ∧
    ((Parcels.get db).items = db.parcels ∧
      (Parcels.get db).count = (Parcels.get db).items.length) ∧
    ((Profiles.get db).items = db.profiles ∧
      (Profiles.get db).count = (Profiles.get db).items.length) := by
  exact ⟨⟨rfl, rfl⟩, ⟨rfl, rfl⟩, ⟨rfl, rfl⟩, ⟨rfl, rfl⟩, ⟨rfl, rfl⟩⟩

/-- Claim C8: patching an existing user with a body holding only a
`username` entry answers 200, returns the row with just the username
replaced, rewrites exactly that row in the users table (prefix and suffix
untouched), and leaves every other table unchanged. -/
theorem patch_username_updates_only_username (db : DB) (id : Nat) (x : String) (u : User)
    (hfind : db.users.find? (fun v => v.id == id) = some u) :
    (UserByID.patch db id [("username", x)]).status = 200 ∧
    (UserByID.patch db id [("username", x)]).record = some { u with username := some x } ∧
    (∃ pre post, db.users = pre ++ u :: post ∧
      (UserByID.patch db id [("username", x)]).db.users =
        pre ++ { u with username := some x } :: post) ∧
    (UserByID.patch db id [("username", x)]).db.orders = db.orders ∧
    (UserByID.patch db id [("username", x)]).db.feedbacks = db.feedbacks ∧
    (UserByID.patch db id [("username", x)]).db.parcels = db.parcels ∧
    (UserByID.patch db id [("username", x)]).db.profiles = db.profiles := by
  obtain ⟨pre, post, hl, hpre, hu, hupd, hrem⟩ :=
    find?_decomp (fun v => v.id == id) db.users u hfind
  refine ⟨by simp [UserByID.patch, hfind],
    by simp [UserByID.patch, hfind, setAttr_username],
    ⟨pre, post, hl, ?_⟩,
    by simp [UserByID.patch, hfind], by simp [UserByID.patch, hfind],
    by simp [UserByID.patch, hfind], by simp [UserByID.patch, hfind]⟩
  have h2 := hupd (fun v => [("username", x)].foldl User.setAttr v)
  simp only [UserByID.patch, hfind]
  simpa [setAttr_username] using h2

/-- Witness for C8: renaming the concrete user to `"neo"`. -/
theorem patch_username_updates_only_username_checked :
    (UserByID.patch db1 1 [("username", "neo")]).status = 200 ∧
    (UserByID.patch db1 1 [("username", "neo")]).record =
      some { user1 with username := some "neo" } :=
  ⟨(patch_username_updates_only_username db1 1 "neo" user1 (by decide)).1,
   (patch_username_updates_only_username db1 1 "neo" user1 (by decide)).2.1⟩

/-- Claim C9: deleting an existing order answers 200 and removes exactly
that row, after which a get by the same id answers 404 (ids being distinct,
as primary keys are). -/
theorem delete_order_then_get_404 (db : DB) (id : Nat) (o : Order)
    (hnd : (db.orders.map Order.id).Nodup)
    (hfind : db.orders.find? (fun v => v.id == id) = some o) :
    (OrderByID.delete db id).status = 200 ∧
    (∃ pre post, db.orders = pre ++ o :: post ∧
      (OrderByID.delete db id).db.orders = pre ++ post) ∧
    (OrderByID.get (OrderByID.delete db id).db id).status = 404 := by
  obtain ⟨pre, post, hl, hpre, ho, hupd, hrem⟩ :=
    find?_decomp (fun v => v.id == id) db.orders o hfind
  have hnone := find?_after_removeFirst Order.id id db.orders o hnd hfind
  refine ⟨?_, ⟨pre, post, hl, ?_⟩, ?_⟩
  · simp [OrderByID.delete, hfind]
  · simp [OrderByID.delete, hfind, hrem]
  · simp [OrderByID.delete, hfind, OrderByID.get, hnone]

/-- Witness for C9: deleting the concrete order with id 5. -/
theorem delete_order_then_get_404_checked :
    (OrderByID.delete db1 5).status = 200 ∧
    (OrderByID.get (OrderByID.delete db1 5).db 5).status = 404 :=
  ⟨(delete_order_then_get_404 db1 5 order1 (by decide) (by decide)).1,
   (delete_order_then_get_404 db1 5 order1 (by decide) (by decide)).2.2⟩

/-- Claim C10: `POST /users` applies no role default — a body without a
role yields a row whose role column is null — whereas Signup stores
`'customer'` when the request carries no role. -/
theorem users_post_role_no_default (db db2 : DB) (newId newId2 : Nat) (body : UsersPostBody)
    (H : Hasher) (salt : String) (req : SignupRequest)
    (hrole : body.role = none) (hrole2 : req.role = none) :
    (Users.post db newId body).record.role = none ∧
    (Signup.newUser H salt newId2 req).role = some "customer" ∧
    (Signup.post H salt db2 newId2 none req).2.users =
      db2.users ++ [Signup.newUser H salt newId2 req] := by
  refine ⟨hrole, ?_, rfl⟩
  simp [Signup.newUser, hrole2]

/-- Witness for C10 at concrete role-less bodies. -/
theorem users_post_role_no_default_checked :
    (Users.post emptyDB 3 ⟨some "dora", some "d@x.com", some "dd", none⟩).record.role = none ∧
    (Signup.newUser exampleHasher "ab" 3 ⟨"d@x.com", "dd", "dora", none⟩).role = some "customer" :=
  ⟨(users_post_role_no_default emptyDB emptyDB 3 3 ⟨some "dora", some "d@x.com", some "dd", none⟩
      exampleHasher "ab" ⟨"d@x.com", "dd", "dora", none⟩ rfl rfl).1,
   (users_post_role_no_default emptyDB emptyDB 3 3 ⟨some "dora", some "d@x.com", some "dd", none⟩
      exampleHasher "ab" ⟨"d@x.com", "dd", "dora", none⟩ rfl rfl).2.1⟩

end SendIT
